import Mathlib

/-!
Verification of the sample-data seeding pipeline
(`src/utilities/loadSampleData.ts` of talawa-api).

The script is sequential I/O orchestration over a document store.  We embed
it shallowly: the database is a total map from collection to list of
documents, fixture files are a partial map from file base name to the parsed
JSON array (`none` models a failed read or parse), and each stage becomes a
pure function threading the database state explicitly.  External failure
points that the script merely reacts to (a database failure during the
reset's deletion sequence, a query failure during count verification) are
supplied as oracles, so each theorem quantifies over the outcomes.  The
reset's oracle is the position of the first failing operation, because the
ten `deleteMany` calls never receive `{ session }` and therefore commit
individually, outside the `withTransaction` they are syntactically inside:
a mid-sequence failure leaves the completed prefix of deletions durable.
Documents themselves are opaque (`Doc := Nat`): the pipeline never inspects
a record, it only moves them in bulk.
-/

namespace LoadSampleData

/-- The ten Mongoose models touched by the script: the nine collections of
the fixed enumeration plus `Community`, which `resetDatabase` also wipes. -/
inductive Coll where
  | community
  | users
  | organizations
  | actionItemCategories
  | agendaCategories
  | events
  | venue
  | recurrenceRules
  | posts
  | appUserProfiles
  deriving DecidableEq, Repr

/-- A document is opaque to the pipeline: it is read from a fixture and
bulk-inserted, never inspected. -/
abbrev Doc := Nat

/-- Database state: each collection holds an ordered list of documents. -/
abbrev DB := Coll → List Doc

/-- A database with every collection empty. -/
def emptyDB : DB := fun _ => []

/-- The fixture environment: `fx name` is the parsed JSON array of
`sample_data/{name}.json`, or `none` when reading or parsing that file
throws (missing file, malformed JSON). -/
abbrev Fixtures := String → Option (List Doc)

/-- `Model.deleteMany({})`: removes every document of one collection. -/
def deleteManyAll (db : DB) (c : Coll) : DB :=
  fun x => if x = c then [] else db x

/-- `Model.insertMany(docs)`: appends the documents to one collection. -/
def insertMany (db : DB) (c : Coll) (docs : List Doc) : DB :=
  fun x => if x = c then db x ++ docs else db x

/-- `Model.countDocuments()`: the current size of one collection. -/
def countDocuments (db : DB) (c : Coll) : Nat :=
  (db c).length

/-- The ten collections whose `deleteMany({})` the reset issues, in source
order (`Community` first). -/
def resetDeleteOrder : List Coll :=
  [.community, .users, .organizations, .actionItemCategories,
   .agendaCategories, .events, .venue, .recurrenceRules, .posts,
   .appUserProfiles]

/-- The first `k` of the reset's deletions, applied in order.  Each call is
durable as soon as it runs: the source never passes `{ session }` to the
`deleteMany` calls, so none of them joins the transaction opened by
`session.withTransaction`. -/
def deletionsPrefix (db : DB) (k : Nat) : DB :=
  (resetDeleteOrder.take k).foldl deleteManyAll db

/-- Outcome of `resetDatabase`: the database after the call, whether the
`finally { session.endSession() }` ran, and whether the call re-threw an
error to its caller (the `catch` logs and does `throw error`). -/
structure ResetResult where
  db : DB
  sessionEnded : Bool
  error : Bool

/-- `resetDatabase`: starts a session, runs the ten deletions inside a
`session.withTransaction` callback, re-throws any failure, and ends the
session in a `finally` block.  Because the `deleteMany` calls do not join
the transaction, each one commits as it runs: `failAt = some k` models a
failure after the first `k` deletions succeeded (`k < 10`: the next call
itself fails; `k ≥ 10`: the transaction fails after all ten ran) — the
completed prefix stays deleted, nothing is rolled back.  `failAt = none`
is the success path. -/
def resetDatabase (db : DB) (failAt : Option Nat) : ResetResult :=
  match failAt with
  | none =>
    { db := deletionsPrefix db resetDeleteOrder.length, sessionEnded := true,
      error := false }
  | some k =>
    { db := deletionsPrefix db k, sessionEnded := true, error := true }

/-- The `switch (collection)` dispatch of `insertCollections`: the nine
recognized names, each mapped to its model; anything else falls to the
`default` branch (`none`). -/
def dispatch (c : String) : Option Coll :=
  if c = "users" then some .users
  else if c = "organizations" then some .organizations
  else if c = "actionItemCategories" then some .actionItemCategories
  else if c = "agendaCategories" then some .agendaCategories
  else if c = "events" then some .events
  else if c = "venue" then some .venue
  else if c = "recurrenceRules" then some .recurrenceRules
  else if c = "posts" then some .posts
  else if c = "appUserProfiles" then some .appUserProfiles
  else none

/-- Console messages the insert loop emits: the red
`Invalid collection name: {name}` of the `default` branch, and the magenta
`Added {name} collection` printed after the `switch` on every iteration. -/
inductive Msg where
  | invalidName (name : String)
  | added (name : String)
  deriving DecidableEq, Repr

/-- Outcome of the insert loop: database after the processed prefix, the
messages printed, and whether the loop ran to completion (`false` when a
fixture read threw, aborting the remaining names). -/
structure LoadResult where
  db : DB
  msgs : List Msg
  ok : Bool

/-- The `for (const collection of collections)` loop of `insertCollections`:
for each name, read and parse `sample_data/{name}.json` (a failure throws,
ending the loop), then dispatch on the name: a recognized name bulk-inserts
the parsed documents, the `default` branch only logs; either way the
`Added {name} collection` line follows. -/
def loadLoop (fx : Fixtures) : List String → DB → LoadResult
  | [], db => { db := db, msgs := [], ok := true }
  | name :: rest, db =>
    match fx name with
    | none => { db := db, msgs := [], ok := false }
    | some docs =>
      match dispatch name with
      | some c =>
        let r := loadLoop fx rest (insertMany db c docs)
        { r with msgs := Msg.added name :: r.msgs }
      | none =>
        let r := loadLoop fx rest db
        { r with msgs := Msg.invalidName name :: Msg.added name :: r.msgs }

/-- The nine (name, model) pairs of `checkCountAfterImport`, in source
order: note `venue` sits between `posts` and `appUserProfiles` here, unlike
in the default list. -/
def verificationCollections : List (String × Coll) :=
  [("users", .users),
   ("organizations", .organizations),
   ("actionItemCategories", .actionItemCategories),
   ("agendaCategories", .agendaCategories),
   ("events", .events),
   ("recurrenceRules", .recurrenceRules),
   ("posts", .posts),
   ("venue", .venue),
   ("appUserProfiles", .appUserProfiles)]

/-- `checkCountAfterImport`: queries `countDocuments` for each of the nine
collections and prints the table.  It threads the database state through
each query so that its (absent) effect on the store is part of the model;
`queryOk` is the oracle for whether the queries succeed — on failure the
stage catches internally, logs, and produces no report.  Returns the
database after the stage and the printed report. -/
def checkCountAfterImport (db : DB) (queryOk : Bool) :
    DB × Option (List (String × Nat)) :=
  if queryOk then
    let r := verificationCollections.foldl
      (fun (acc : DB × List (String × Nat)) nc =>
        (acc.1, acc.2 ++ [(nc.1, countDocuments acc.1 nc.2)]))
      (db, [])
    (r.1, some r.2)
  else
    (db, none)

/-- Outcome of `insertCollections` (and hence of the whole run): final
database, loop messages, verification report, whether the top-level
`catch` logged an error, and the process exit status. -/
structure RunResult where
  db : DB
  msgs : List Msg
  report : Option (List (String × Nat))
  errorLogged : Bool
  exitCode : Nat

/-- `insertCollections`: connect, `resetDatabase`, the insert loop, then
`checkCountAfterImport`; one `catch` logs any error thrown by the reset or
a fixture read, and `finally { process.exit(0) }` always exits with 0.
`resetFail` is the failure oracle of the reset, `queryOk` the query
oracle of the verification stage. -/
def insertCollections (fx : Fixtures) (names : List String) (db : DB)
    (resetFail : Option Nat) (queryOk : Bool) : RunResult :=
  let r := resetDatabase db resetFail
  if r.error then
    { db := r.db, msgs := [], report := none, errorLogged := true,
      exitCode := 0 }
  else
    let l := loadLoop fx names r.db
    if l.ok then
      let v := checkCountAfterImport l.db queryOk
      { db := v.1, msgs := l.msgs, report := v.2, errorLogged := false,
        exitCode := 0 }
    else
      { db := l.db, msgs := l.msgs, report := none, errorLogged := true,
        exitCode := 0 }

/-- The built-in default list (source order). -/
def defaultCollections : List String :=
  ["users", "organizations", "posts", "events", "venue",
   "recurrenceRules", "appUserProfiles", "actionItemCategories",
   "agendaCategories"]

/-- A directory entry as `listSampleData` sees it: a regular file (with its
content already parsed as a JSON array of records, the shape every fixture
file has) or a non-file entry, which `stats.isFile()` filters out. -/
inductive FsEntry where
  | file (content : List Doc)
  | subdir
  deriving DecidableEq, Repr

/-- `listSampleData`: for every regular file of the sample-data directory,
print its name and the `length` of its parsed content. -/
def listSampleData (entries : List (String × FsEntry)) :
    List (String × Nat) :=
  entries.filterMap fun e =>
    match e.2 with
    | .file content => some (e.1, content.length)
    | .subdir => none

/-- `argvItems.split(",")` — JavaScript string split on a comma
(accumulator-based, so `""` splits to `[""]`, as in JS). -/
def splitCommaAux : List Char → List Char → List (List Char)
  | [], acc => [acc.reverse]
  | c :: rest, acc =>
    if c = ',' then acc.reverse :: splitCommaAux rest []
    else splitCommaAux rest (c :: acc)

/-- String form of `splitCommaAux` applied to a whole string. -/
def splitComma (s : String) : List String :=
  (splitCommaAux s.data []).map fun l => String.mk l

/-- Combined outcome of one run of the script. -/
structure PipelineResult where
  listing : List (String × Nat)
  run : RunResult

/-- The entry IIFE: choose the name list from the optional `--items` flag
(split on commas) or the default list, run `listSampleData`, then
`insertCollections`. -/
def orchestrator (entries : List (String × FsEntry)) (fx : Fixtures)
    (items : Option String) (db : DB) (resetFail : Option Nat)
    (queryOk : Bool) : PipelineResult :=
  let names :=
    match items with
    | some s => splitComma s
    | none => defaultCollections
  { listing := listSampleData entries,
    run := insertCollections fx names db resetFail queryOk }

/-- The documents that the loop appends to collection `c` while processing
`names` (in order): each recognized name dispatching to `c` contributes its
fixture array. -/
def insertedDocs (fx : Fixtures) (c : Coll) : List String → List Doc
  | [] => []
  | n :: rest =>
    (match fx n, dispatch n with
     | some docs, some c' => if c' = c then docs else []
     | _, _ => []) ++ insertedDocs fx c rest

/-- The canonical fixture name of each dispatchable collection (arbitrary
for `community`, which no name dispatches to). -/
def collName : Coll → String
  | .community => ""
  | .users => "users"
  | .organizations => "organizations"
  | .actionItemCategories => "actionItemCategories"
  | .agendaCategories => "agendaCategories"
  | .events => "events"
  | .venue => "venue"
  | .recurrenceRules => "recurrenceRules"
  | .posts => "posts"
  | .appUserProfiles => "appUserProfiles"

/-- A small concrete fixture environment: a one-record `users` fixture and
a two-record `events` fixture on disk, nothing else. -/
def fxSmall : Fixtures := fun n =>
  if n = "users" then some [1] else if n = "events" then some [2, 3] else none

/-- A fixture environment where every file exists and parses to the empty
array. -/
def fxAll : Fixtures := fun _ => some []

/-- A concrete database where every collection holds exactly one
document. -/
def dbOne : DB := fun _ => [1]

/-- A name recognized by the dispatch is the canonical name of its
collection. -/
theorem dispatch_eq_name {n : String} {c : Coll} (h : dispatch n = some c) :
    n = collName c := by
  unfold dispatch at h
  split_ifs at h <;> (injection h with h; subst h; simp_all [collName])

/-- Two names dispatching to the same collection are equal. -/
theorem dispatch_inj {n m : String} {c : Coll} (hn : dispatch n = some c)
    (hm : dispatch m = some c) : n = m :=
  (dispatch_eq_name hn).trans (dispatch_eq_name hm).symm

/-- No name dispatches to the `Community` collection. -/
theorem dispatch_ne_community {n : String} {c : Coll}
    (h : dispatch n = some c) : c ≠ Coll.community := by
  unfold dispatch at h
  split_ifs at h <;> (injection h with h; subst h; simp)

/-- Running all ten deletions empties every one of the ten collections. -/
theorem deletionsPrefix_all (db : DB) :
    deletionsPrefix db resetDeleteOrder.length = emptyDB := by
  funext c
  cases c <;> rfl

/-- A fully successful reset yields the empty database, ends the session,
and raises no error. -/
theorem resetDatabase_none (db : DB) :
    resetDatabase db none = ⟨emptyDB, true, false⟩ := by
  simp [resetDatabase, deletionsPrefix_all]

/-- The verification stage returns the database unchanged. -/
theorem checkCountAfterImport_fst (db : DB) (q : Bool) :
    (checkCountAfterImport db q).1 = db := by
  cases q <;> simp [checkCountAfterImport, verificationCollections]

/-- With a successful reset, the run does not depend on the prior database
state: every collection is emptied before the first insert. -/
theorem insertCollections_db_indep (fx : Fixtures) (names : List String)
    (db db' : DB) (queryOk : Bool) :
    insertCollections fx names db none queryOk
      = insertCollections fx names db' none queryOk := by
  simp [insertCollections, resetDatabase_none]

/-- The insert loop leaves the `Community` collection untouched. -/
theorem loadLoop_community (fx : Fixtures) (names : List String) :
    ∀ db : DB, (loadLoop fx names db).db Coll.community = db Coll.community := by
  induction names with
  | nil => intro db; rfl
  | cons n rest ih =>
    intro db
    rcases hfx : fx n with _ | docs
    · simp [loadLoop, hfx]
    · rcases hd : dispatch n with _ | c
      · simp [loadLoop, hfx, hd, ih]
      · have hc : Coll.community ≠ c := fun h => dispatch_ne_community hd h.symm
        simp [loadLoop, hfx, hd, ih, insertMany, hc]

/-- When the insert loop completes, each collection holds its initial
content followed by exactly the fixture arrays of the names that
dispatched to it, in order. -/
theorem loadLoop_db_eq (fx : Fixtures) (names : List String) :
    ∀ db : DB, (loadLoop fx names db).ok = true →
      ∀ c : Coll, (loadLoop fx names db).db c = db c ++ insertedDocs fx c names := by
  induction names with
  | nil => intro db _ c; simp [loadLoop, insertedDocs]
  | cons n rest ih =>
    intro db h c
    rcases hfx : fx n with _ | docs
    · simp [loadLoop, hfx] at h
    · rcases hd : dispatch n with _ | c'
      · simp only [loadLoop, hfx, hd] at h ⊢
        rw [ih db h c]
        simp [insertedDocs, hfx, hd]
      · simp only [loadLoop, hfx, hd] at h ⊢
        rw [ih (insertMany db c' docs) h c]
        by_cases hc : c = c'
        · subst hc
          simp [insertMany, insertedDocs, hfx, hd]
        · have hc' : c' ≠ c := fun h' => hc h'.symm
          simp [insertMany, insertedDocs, hfx, hd, hc, hc']

/-- A completed insert loop inserts nothing into a collection whose
recognized name does not occur in the processed list. -/
theorem insertedDocs_of_not_mem (fx : Fixtures) (c : Coll) (name : String)
    (hname : dispatch name = some c) :
    ∀ names : List String, name ∉ names → insertedDocs fx c names = [] := by
  intro names
  induction names with
  | nil => intro _; rfl
  | cons m rest ih =>
    intro hnot
    have hm : m ≠ name := fun h => hnot (h ▸ List.mem_cons_self m rest)
    have hrest : insertedDocs fx c rest = [] :=
      ih fun h => hnot (List.mem_cons_of_mem m h)
    rcases hfx : fx m with _ | docs
    · simp [insertedDocs, hfx, hrest]
    · rcases hd : dispatch m with _ | c'
      · simp [insertedDocs, hfx, hd, hrest]
      · by_cases hc : c' = c
        · subst hc
          exact absurd (dispatch_inj hd hname) hm
        · simp [insertedDocs, hfx, hd, hc, hrest]

/-- A name occurring exactly once contributes exactly its fixture array to
its collection. -/
theorem insertedDocs_single (fx : Fixtures) (c : Coll) (name : String)
    (docs : List Doc) (hd : dispatch name = some c) (hfx : fx name = some docs) :
    ∀ names : List String, names.count name = 1 → insertedDocs fx c names = docs := by
  intro names
  induction names with
  | nil => intro h; simp at h
  | cons m rest ih =>
    intro h
    by_cases hm : m = name
    · subst hm
      have hzero : rest.count m = 0 := by
        rw [List.count_cons_self] at h
        omega
      have hnot : m ∉ rest := List.count_eq_zero.mp hzero
      simp [insertedDocs, hfx, hd, insertedDocs_of_not_mem fx c m hd rest hnot]
    · have hrest : rest.count name = 1 := by
        rw [List.count_cons] at h
        simpa [hm, Ne.symm hm] using h
      rcases hfxm : fx m with _ | docsm
      · simp [insertedDocs, hfxm, ih hrest]
      · rcases hdm : dispatch m with _ | c'
        · simp [insertedDocs, hfxm, hdm, ih hrest]
        · by_cases hc : c' = c
          · subst hc
            exact absurd (dispatch_inj hdm hd) hm
          · simp [insertedDocs, hfxm, hdm, hc, ih hrest]

/-- With a successful reset, a run is the insert loop started from the
empty database, verified when the loop completes. -/
theorem insertCollections_success_spec (fx : Fixtures) (names : List String)
    (db : DB) (queryOk : Bool) :
    insertCollections fx names db none queryOk =
      (if (loadLoop fx names emptyDB).ok then
        { db := (loadLoop fx names emptyDB).db,
          msgs := (loadLoop fx names emptyDB).msgs,
          report := (checkCountAfterImport (loadLoop fx names emptyDB).db queryOk).2,
          errorLogged := false, exitCode := 0 }
      else
        { db := (loadLoop fx names emptyDB).db,
          msgs := (loadLoop fx names emptyDB).msgs,
          report := none, errorLogged := true, exitCode := 0 }) := by
  simp [insertCollections, resetDatabase_none, checkCountAfterImport_fst]

/-- The run never exits with a status other than 0. -/
theorem insertCollections_exitCode (fx : Fixtures) (names : List String)
    (db : DB) (resetFail : Option Nat) (queryOk : Bool) :
    (insertCollections fx names db resetFail queryOk).exitCode = 0 := by
  rw [insertCollections]
  dsimp only
  split
  · rfl
  · split <;> rfl

/-- C1 (code bug): the Reset Stage is not atomic.  The ten `deleteMany`
calls never pass `{ session }`, so each commits as it runs; on a database
where every collection holds one document, a failure after the first five
deletions (the `Event.deleteMany` call fails) propagates an error yet
leaves `users` already emptied and durable while `events` still holds its
document — neither "all deletions succeed" nor "none are kept", against
the claimed (and spec-mandated) all-or-nothing contract. -/
theorem C1_mid_reset_failure_leaves_partial_wipe :
    (resetDatabase dbOne (some 5)).error = true
    ∧ (resetDatabase dbOne (some 5)).db Coll.users = []
    ∧ (resetDatabase dbOne (some 5)).db Coll.events = [1]
    ∧ ¬((resetDatabase dbOne (some 5)).db Coll.events = []
        ∨ (resetDatabase dbOne (some 5)).db Coll.users = dbOne Coll.users) := by
  decide

/-- C2 (counterexample): with only the nine standard fixture files on disk,
running the loop on `["bad", "users"]` makes the read of `bad.json` throw:
no invalid-name message is printed (the loop emits no message at all), the
remaining name `users` is never processed (its collection stays empty), and
the top-level handler logs the error — the loop halts instead of skipping
the unrecognized name. -/
theorem C2_counterexample :
    (insertCollections fxSmall ["bad", "users"] emptyDB none true).msgs = []
    ∧ Msg.invalidName "bad"
        ∉ (insertCollections fxSmall ["bad", "users"] emptyDB none true).msgs
    ∧ (insertCollections fxSmall ["bad", "users"] emptyDB none true).db Coll.users = []
    ∧ (insertCollections fxSmall ["bad", "users"] emptyDB none true).errorLogged = true := by
  decide

/-- C2 (amended): for a name outside the nine-name enumeration WHOSE
FIXTURE FILE READS AND PARSES SUCCESSFULLY, no insert occurs for that name,
the invalid-name message is emitted (followed by the unconditional `Added`
line), and the loop continues with the remaining names exactly as if the
name were absent; when the fixture read fails instead, the load aborts. -/
theorem C2_invalid_name_reported_and_skipped (fx : Fixtures) (name : String)
    (rest : List String) (db : DB) (docs : List Doc)
    (hd : dispatch name = none) (hfx : fx name = some docs) :
    loadLoop fx (name :: rest) db =
      { db := (loadLoop fx rest db).db,
        msgs := Msg.invalidName name :: Msg.added name
          :: (loadLoop fx rest db).msgs,
        ok := (loadLoop fx rest db).ok } := by
  simp [loadLoop, hfx, hd]

/-- C2 (witness): the amended statement at the concrete name `"bad"` with
an on-disk (empty) fixture for it. -/
theorem C2_invalid_name_reported_and_skipped_witness :
    dispatch "bad" = none
    ∧ fxAll "bad" = some []
    ∧ loadLoop fxAll ["bad", "users"] emptyDB =
        { db := (loadLoop fxAll ["users"] emptyDB).db,
          msgs := Msg.invalidName "bad" :: Msg.added "bad"
            :: (loadLoop fxAll ["users"] emptyDB).msgs,
          ok := (loadLoop fxAll ["users"] emptyDB).ok } :=
  ⟨by decide, rfl,
    C2_invalid_name_reported_and_skipped fxAll "bad" ["users"] emptyDB []
      (by decide) rfl⟩

/-- C3 (counterexample): a name of the enumeration may occur twice in the
input list; the run completes successfully yet the collection then holds
twice the fixture's records, so the claimed count equality fails. -/
theorem C3_counterexample :
    (insertCollections fxSmall ["users", "users"] emptyDB none true).errorLogged = false
    ∧ fxSmall "users" = some [1]
    ∧ (insertCollections fxSmall ["users", "users"] emptyDB none true).db Coll.users = [1, 1]
    ∧ ¬((insertCollections fxSmall ["users", "users"] emptyDB none true).db
          Coll.users).length = ([1] : List Doc).length := by
  decide

/-- C3 (amended): for every collection name that occurs EXACTLY ONCE in the
input list and belongs to the fixed enumeration, after the run completes
without a logged error the target collection holds exactly as many
documents as the fixture file has records. -/
theorem C3_fixture_count_loaded (fx : Fixtures) (names : List String)
    (db : DB) (queryOk : Bool) (name : String) (c : Coll) (docs : List Doc)
    (hd : dispatch name = some c) (hfx : fx name = some docs)
    (hcount : names.count name = 1)
    (hok : (insertCollections fx names db none queryOk).errorLogged = false) :
    ((insertCollections fx names db none queryOk).db c).length = docs.length := by
  rw [insertCollections_success_spec] at hok ⊢
  rcases hl : (loadLoop fx names emptyDB).ok with _ | _
  · rw [hl] at hok
    simp at hok
  · rw [if_pos rfl]
    dsimp only
    rw [loadLoop_db_eq fx names emptyDB hl c,
      insertedDocs_single fx c name docs hd hfx names hcount]
    simp [emptyDB]

/-- C3 (witness): the amended statement at the one-element list
`["users"]` over the small concrete fixture environment. -/
theorem C3_fixture_count_loaded_witness :
    dispatch "users" = some Coll.users
    ∧ fxSmall "users" = some [1]
    ∧ (["users"].count "users") = 1
    ∧ (insertCollections fxSmall ["users"] emptyDB none true).errorLogged = false
    ∧ ((insertCollections fxSmall ["users"] emptyDB none true).db Coll.users).length
        = ([1] : List Doc).length :=
  ⟨by decide, rfl, by decide, by decide,
    C3_fixture_count_loaded fxSmall ["users"] emptyDB true "users" Coll.users [1]
      (by decide) rfl (by decide) (by decide)⟩

/-- C4: running the pipeline twice over the same fixtures and name list
yields the same final database and the same verification report both
times, because the successful reset wipes all prior state at the start of
each run. -/
theorem C4_pipeline_idempotent (fx : Fixtures) (names : List String)
    (db : DB) (queryOk : Bool) :
    (insertCollections fx names
        (insertCollections fx names db none queryOk).db none queryOk).db
      = (insertCollections fx names db none queryOk).db
    ∧ (insertCollections fx names
        (insertCollections fx names db none queryOk).db none queryOk).report
      = (insertCollections fx names db none queryOk).report := by
  rw [insertCollections_db_indep fx names
    (insertCollections fx names db none queryOk).db db queryOk]
  exact ⟨rfl, rfl⟩

/-- C5: the process exit status is 0 on every path — whatever the name
list, the fixture environment, the reset outcome, or the verification
outcome, `finally { process.exit(0) }` runs. -/
theorem C5_process_always_exits_zero (entries : List (String × FsEntry))
    (fx : Fixtures) (items : Option String) (db : DB)
    (resetFail : Option Nat) (queryOk : Bool) :
    (orchestrator entries fx items db resetFail queryOk).run.exitCode = 0 := by
  cases items <;> exact insertCollections_exitCode _ _ _ _ _

/-- C6: invoked with `--items users,events`, the run inserts only into the
`users` and `events` collections (every other collection, `Community`
included, ends empty — the Load Stage ran the Reset over all collections
regardless of the selection), while the Verification Stage still reports
all nine fixed collections, the unselected ones at count 0. -/
theorem C6_partial_selection_users_events (entries : List (String × FsEntry))
    (fx : Fixtures) (db : DB) (u e : List Doc)
    (hu : fx "users" = some u) (he : fx "events" = some e) :
    (orchestrator entries fx (some "users,events") db none true).run.db Coll.users = u
    ∧ (orchestrator entries fx (some "users,events") db none true).run.db Coll.events = e
    ∧ (orchestrator entries fx (some "users,events") db none true).run.db Coll.community = []
    ∧ (orchestrator entries fx (some "users,events") db none true).run.db Coll.organizations = []
    ∧ (orchestrator entries fx (some "users,events") db none true).run.db Coll.actionItemCategories = []
    ∧ (orchestrator entries fx (some "users,events") db none true).run.db Coll.agendaCategories = []
    ∧ (orchestrator entries fx (some "users,events") db none true).run.db Coll.venue = []
    ∧ (orchestrator entries fx (some "users,events") db none true).run.db Coll.recurrenceRules = []
    ∧ (orchestrator entries fx (some "users,events") db none true).run.db Coll.posts = []
    ∧ (orchestrator entries fx (some "users,events") db none true).run.db Coll.appUserProfiles = []
    ∧ (orchestrator entries fx (some "users,events") db none true).run.report
        = some [("users", u.length), ("organizations", 0),
            ("actionItemCategories", 0), ("agendaCategories", 0),
            ("events", e.length), ("recurrenceRules", 0), ("posts", 0),
            ("venue", 0), ("appUserProfiles", 0)] := by
  have hsplit : splitComma "users,events" = ["users", "events"] := by decide
  have d1 : dispatch "users" = some Coll.users := by decide
  have d2 : dispatch "events" = some Coll.events := by decide
  have hload : loadLoop fx ["users", "events"] emptyDB =
      ⟨insertMany (insertMany emptyDB Coll.users u) Coll.events e,
        [Msg.added "users", Msg.added "events"], true⟩ := by
    simp [loadLoop, hu, he, d1, d2]
  have hrun : (orchestrator entries fx (some "users,events") db none true).run
      = insertCollections fx ["users", "events"] db none true := by
    simp [orchestrator, hsplit]
  rw [hrun, insertCollections_success_spec, hload]
  rw [if_pos rfl]
  dsimp only
  refine ⟨?_, ?_, ?_, ?_, ?_, ?_, ?_, ?_, ?_, ?_, ?_⟩ <;>
    simp [checkCountAfterImport, verificationCollections, countDocuments,
      insertMany, emptyDB]

/-- C6 (witness): the partial-selection run over the small concrete
fixture environment (one `users` record, two `events` records). -/
theorem C6_partial_selection_users_events_witness :
    fxSmall "users" = some [1]
    ∧ fxSmall "events" = some [2, 3]
    ∧ ((orchestrator [] fxSmall (some "users,events") emptyDB none true).run.db Coll.users = [1]
      ∧ (orchestrator [] fxSmall (some "users,events") emptyDB none true).run.db Coll.events = [2, 3]
      ∧ (orchestrator [] fxSmall (some "users,events") emptyDB none true).run.db Coll.community = []
      ∧ (orchestrator [] fxSmall (some "users,events") emptyDB none true).run.db Coll.organizations = []
      ∧ (orchestrator [] fxSmall (some "users,events") emptyDB none true).run.db Coll.actionItemCategories = []
      ∧ (orchestrator [] fxSmall (some "users,events") emptyDB none true).run.db Coll.agendaCategories = []
      ∧ (orchestrator [] fxSmall (some "users,events") emptyDB none true).run.db Coll.venue = []
      ∧ (orchestrator [] fxSmall (some "users,events") emptyDB none true).run.db Coll.recurrenceRules = []
      ∧ (orchestrator [] fxSmall (some "users,events") emptyDB none true).run.db Coll.posts = []
      ∧ (orchestrator [] fxSmall (some "users,events") emptyDB none true).run.db Coll.appUserProfiles = []
      ∧ (orchestrator [] fxSmall (some "users,events") emptyDB none true).run.report
          = some [("users", ([1] : List Doc).length), ("organizations", 0),
              ("actionItemCategories", 0), ("agendaCategories", 0),
              ("events", ([2, 3] : List Doc).length), ("recurrenceRules", 0),
              ("posts", 0), ("venue", 0), ("appUserProfiles", 0)]) :=
  ⟨rfl, rfl,
    C6_partial_selection_users_events [] fxSmall emptyDB [1] [2, 3] rfl rfl⟩

/-- C7 (code bug): `resetDatabase` does end its session on every exit path
and does propagate any failure to its caller, but it does not effectively
wrap the deletions in the transaction: the `deleteMany` calls lack
`{ session }`, so on the same mid-sequence failure as C1 the already-run
deletions stay committed (`community` is wiped, differing from its prior
state) while later ones never ran (`posts` keeps its document) — the store
is neither rolled back nor fully reset, against the claimed transactional
wrapping. -/
theorem C7_session_released_but_reset_not_transactional :
    (∀ (db : DB) (failAt : Option Nat),
      (resetDatabase db failAt).sessionEnded = true)
    ∧ (∀ (db : DB) (k : Nat), (resetDatabase db (some k)).error = true)
    ∧ (∀ db : DB, (resetDatabase db none).error = false)
    ∧ (resetDatabase dbOne (some 5)).db Coll.community = []
    ∧ (resetDatabase dbOne (some 5)).db Coll.posts = [1]
    ∧ ¬(resetDatabase dbOne (some 5)).db Coll.community = dbOne Coll.community := by
  refine ⟨?_, ?_, ?_, by decide, by decide, by decide⟩
  · intro db failAt
    cases failAt <;> rfl
  · intro db k
    rfl
  · intro db
    rfl

/-- C8: for every regular file of the sample-data directory, the listing
reports the file's name together with the length of the JSON array parsed
from its content. -/
theorem C8_listing_reports_array_length (entries : List (String × FsEntry))
    (name : String) (content : List Doc)
    (h : (name, FsEntry.file content) ∈ entries) :
    (name, content.length) ∈ listSampleData entries := by
  induction entries with
  | nil => cases h
  | cons e rest ih =>
    rcases List.mem_cons.mp h with heq | hmem
    · rw [← heq]
      simp [listSampleData]
    · rcases e with ⟨n', ent⟩
      cases ent with
      | file c' => simpa [listSampleData] using Or.inr (ih hmem)
      | subdir => simpa [listSampleData] using ih hmem

/-- C8 (witness): the listing of a directory with a single two-record
fixture file. -/
theorem C8_listing_reports_array_length_witness :
    ("users.json", FsEntry.file [1, 2]) ∈ [("users.json", FsEntry.file [1, 2])]
    ∧ ("users.json", ([1, 2] : List Doc).length)
        ∈ listSampleData [("users.json", FsEntry.file [1, 2])] :=
  ⟨by decide,
    C8_listing_reports_array_length [("users.json", FsEntry.file [1, 2])]
      "users.json" [1, 2] (by decide)⟩

/-- C9: the Verification Stage returns the database exactly as it received
it (its only store operation is `countDocuments`), and whether its queries
succeed or fail changes neither the final database, nor whether the Load
Stage logged an error, nor the exit status (which is 0 either way). -/
theorem C9_verification_is_observational (db : DB) (queryOk : Bool)
    (fx : Fixtures) (names : List String) (db0 : DB)
    (resetFail : Option Nat) :
    (checkCountAfterImport db queryOk).1 = db
    ∧ (insertCollections fx names db0 resetFail true).db
        = (insertCollections fx names db0 resetFail false).db
    ∧ (insertCollections fx names db0 resetFail true).errorLogged
        = (insertCollections fx names db0 resetFail false).errorLogged
    ∧ (insertCollections fx names db0 resetFail true).exitCode = 0
    ∧ (insertCollections fx names db0 resetFail false).exitCode = 0 := by
  refine ⟨checkCountAfterImport_fst db queryOk, ?_, ?_,
    insertCollections_exitCode _ _ _ _ _, insertCollections_exitCode _ _ _ _ _⟩ <;>
  · cases resetFail
    · rw [insertCollections_success_spec, insertCollections_success_spec]
      split <;> rfl
    · rfl

/-- C10: every successful reset also empties the `Community` collection —
a tenth collection outside the nine-name enumeration — and since no input
name ever dispatches to it, it is still empty at the end of any run with a
successful reset. -/
theorem C10_community_also_wiped (db : DB) (fx : Fixtures)
    (names : List String) (queryOk : Bool) :
    (resetDatabase db none).db Coll.community = []
    ∧ (resetDatabase db none).error = false
    ∧ (insertCollections fx names db none queryOk).db Coll.community = [] := by
  refine ⟨by rw [resetDatabase_none]; rfl, by rw [resetDatabase_none], ?_⟩
  rw [insertCollections_success_spec]
  split <;> simp [loadLoop_community, emptyDB]

end LoadSampleData
